import Mathlib

/-!
# Verification of the anomaly-detection pipeline (`main.py`)

Shallow embedding of the core of `main.py`: per-(unidade, material) group
statistics (Z-score and IQR outlier signals), flag fusion, the alert panel
builder and the financial-impact aggregator.

Modelling conventions:
* A dataframe is a list of `MovementRecord`s in generation order; the float
  arithmetic of numpy/pandas is modelled exactly over `ℚ`.
* `scipy.stats.zscore(x)` uses the *population* standard deviation
  (`ddof = 0`).  Its boolean use `zscores.abs() > z_thresh` is modelled
  without square roots via the equivalence `|d|/σ > t ↔ t² · σ² < d²`
  (valid for `t ≥ 0`, and the program only uses the threshold `3.0`);
  the `σ = 0` case produces NaN in the code and `NaN > t` is `False`,
  modelled by the conjunct `0 < σ²`.
* `Series.round(2)` is numpy rounding: round half to even, modelled by
  `roundHalfEven`/`round2`.
* The explicit `zscore` column of the panel is a float that is NaN exactly
  when the group variance is zero; it is modelled as `Option ℚ` (`none` =
  NaN) holding the 2-decimal rounding of `(q − μ)/σ`, computed exactly with
  integer square roots.
* `DataFrame.sort_values(col, ascending=False)` (pandas `nargsort`) argsorts
  ascending with numpy's default sort and reverses the result; the model
  uses `reverse ∘ (ascending insertion sort)`, which matches the program
  exactly on panels below numpy's 16-element insertion-sort cutoff and up
  to the order of equal sort keys otherwise (numpy's introsort is unstable
  on larger arrays, so the program fixes no tie order there).
-/

/-- A row of the simulated dataframe (`data`, `unidade`, `material`, `tipo`,
`qtd`, `custo_unit`); `data` is an abstract day ordinal, `valor_movto` is
derived and unused by the core. -/
structure MovementRecord where
  data : Nat
  unidade : String
  material : String
  tipo : String
  qtd : ℚ
  custo_unit : ℚ
deriving Repr, DecidableEq

/-- The input dataset: rows in generation order. -/
abbrev DataFrame := List MovementRecord

/-- Membership for `groupby(["unidade", "material"])`: two rows fall in the same
group iff they agree on both keys. -/
def sameGroup (r s : MovementRecord) : Bool :=
  r.unidade == s.unidade && r.material == s.material

/-- The `qtd` column of the group of `r`, in original row order (pandas
`groupby` keeps the within-group order of the frame). -/
def groupQtds (df : DataFrame) (r : MovementRecord) : List ℚ :=
  (df.filter (fun s => sameGroup r s)).map (fun s => s.qtd)

/-- Arithmetic mean, as numpy `mean` (the empty case never arises: a row's
own group contains it; `ℚ` division by zero gives `0`). -/
def mean (xs : List ℚ) : ℚ := xs.sum / xs.length

/-- Population variance (`ddof = 0`), the square of the standard deviation
used by `scipy.stats.zscore`. -/
def popVar (xs : List ℚ) : ℚ :=
  (xs.map (fun x => (x - mean xs) ^ 2)).sum / xs.length

/-- The Z-score flag of one value `q` against its group's quantities `xs`:
the group Z-score (population σ) exceeds `z_thresh` in absolute value.
`stats.zscore` yields NaN when `σ = 0` (hence never a flag), and otherwise
`|d|/σ > t ↔ t²·σ² < d²`. -/
def zscoreFlagVal (xs : List ℚ) (z_thresh q : ℚ) : Bool :=
  decide (0 < popVar xs ∧ z_thresh ^ 2 * popVar xs < (q - mean xs) ^ 2)

/-- One entry of `calc_zscore_flags`: the row's value flagged against the
row's group. -/
def zscoreFlagRow (df : DataFrame) (z_thresh : ℚ) (r : MovementRecord) : Bool :=
  zscoreFlagVal (groupQtds df r) z_thresh r.qtd

/-- The function `calc_zscore_flags(df, z_thresh)`: the boolean `flag_zscore` column. -/
def calc_zscore_flags (df : DataFrame) (z_thresh : ℚ := 3) : List Bool :=
  df.map (fun r => zscoreFlagRow df z_thresh r)

/-- Pandas `Series.quantile(p)` with the default linear interpolation:
position `h = p·(n−1)` between the sorted values, result
`s⟨⌊h⌋⟩ + (h − ⌊h⌋)·(s⟨⌊h⌋+1⟩ − s⟨⌊h⌋⟩)`. -/
def quantileLinear (xs : List ℚ) (p : ℚ) : ℚ :=
  let s := List.insertionSort (· ≤ ·) xs
  if xs.length = 0 then 0
  else
    let h : ℚ := p * ((xs.length : ℚ) - 1)
    let f : ℕ := (⌊h⌋).toNat
    let lo := s.getD f 0
    lo + (h - (f : ℚ)) * (s.getD (f + 1) lo - lo)

/-- The IQR flag of one value `q` against its group's quantities `xs`:
`q < Q1 − k·IQR ∨ q > Q3 + k·IQR` with `Q1`/`Q3` the 0.25/0.75
quantiles. -/
def iqrFlagVal (xs : List ℚ) (k q : ℚ) : Bool :=
  let q1 := quantileLinear xs (1/4)
  let q3 := quantileLinear xs (3/4)
  let iqr := q3 - q1
  decide (q < q1 - k * iqr ∨ q3 + k * iqr < q)

/-- One entry of `calc_iqr_flags`: the row's value flagged against the
row's group. -/
def iqrFlagRow (df : DataFrame) (k : ℚ) (r : MovementRecord) : Bool :=
  iqrFlagVal (groupQtds df r) k r.qtd

/-- The function `calc_iqr_flags(df, k)`: the boolean `flag_iqr` column. -/
def calc_iqr_flags (df : DataFrame) (k : ℚ := 3/2) : List Bool :=
  df.map (fun r => iqrFlagRow df k r)

/-- The `flag_any` value of a row: `df[["flag_zscore", "flag_iqr"]].any(axis=1)`,
the row-wise `any` over the two detector columns. -/
def flagAnyRow (df : DataFrame) (r : MovementRecord) : Bool :=
  [zscoreFlagRow df 3 r, iqrFlagRow df (3/2) r].any id

/-- The numpy rounding of a real to an integer: round half to even. -/
def roundHalfEven (y : ℚ) : ℤ :=
  let f : ℤ := ⌊y⌋
  let r : ℚ := y - (f : ℚ)
  if r < 1/2 then f
  else if 1/2 < r then f + 1
  else if f % 2 = 0 then f else f + 1

/-- Pandas `Series.round(2)`: numpy half-to-even rounding at 2 decimals. -/
def round2 (x : ℚ) : ℚ := ((roundHalfEven (100 * x) : ℚ)) / 100

/-- Floor of the square root of a nonnegative rational, via `Nat.sqrt`
(`√(a/b) = √(ab)/b` and `⌊⌊√(ab)⌋ / b⌋ = ⌊√(ab)/b⌋`). -/
def ratSqrtFloor (x : ℚ) : ℕ := Nat.sqrt (x.num.toNat * x.den) / x.den

/-- The explicit `zscore` column of the panel: `stats.zscore` rounded to 2
decimals, NaN (`none`) when the group variance is zero.  For `σ > 0` the
value is `sign(q − μ) · (100·|z| rounded half-to-even) / 100`, computed
from `z² = (q − μ)²/σ²` with integer square roots: with
`m = ⌊100·|z|⌋`, the rounding is `m + 1` when `100·|z| > m + ½`
(i.e. `40000·z² > (2m+1)²`), `m` when below, and the even endpoint at a
tie. -/
def zscoreVal (xs : List ℚ) (q : ℚ) : Option ℚ :=
  let μ := mean xs
  let v := popVar xs
  if v = 0 then none
  else
    let zsq : ℚ := (q - μ) ^ 2 / v
    let m : ℕ := ratSqrtFloor (10000 * zsq)
    let m2 : ℕ :=
      if ((2 * m + 1 : ℕ) : ℚ) ^ 2 < 40000 * zsq then m + 1
      else if 40000 * zsq < ((2 * m + 1 : ℕ) : ℚ) ^ 2 then m
      else if m % 2 = 0 then m else m + 1
    some ((if q < μ then -1 else 1) * (m2 : ℚ) / 100)

/-- A row of the alert panel: the record's display columns plus the
explicit `zscore`, the two detector flags and `impacto_R$`
(written `impacto_RS`). -/
structure AlertEntry where
  data : Nat
  unidade : String
  material : String
  tipo : String
  qtd : ℚ
  zscore : Option ℚ
  flag_zscore : Bool
  flag_iqr : Bool
  impacto_RS : ℚ
deriving Repr, DecidableEq

/-- The panel row built from a retained record: `zscore` from the full-frame
group statistics (the code's `transform` runs over `df`, aligned to the
anomaly rows by index), `impacto_R$ = (qtd.abs() * custo_unit).round(2)`. -/
def toEntry (df : DataFrame) (r : MovementRecord) : AlertEntry :=
  { data := r.data
    unidade := r.unidade
    material := r.material
    tipo := r.tipo
    qtd := r.qtd
    zscore := zscoreVal (groupQtds df r) r.qtd
    flag_zscore := zscoreFlagRow df 3 r
    flag_iqr := iqrFlagRow df (3/2) r
    impacto_RS := round2 (|r.qtd| * r.custo_unit) }

/-- Pandas `sort_values("impacto_R$", ascending=False)`: `nargsort`
argsorts ascending with numpy's default sort and reverses the result.
numpy's default sort is an introsort that is stable only incidentally,
on arrays below its 16-element insertion-sort cutoff; this model uses a
stable insertion sort at every size, so it agrees with the program
exactly on such small panels and up to the ordering of equal
`impacto_R$` keys in general.  No theorem below relies on the tie order
of a large panel. -/
def panelSort (l : List AlertEntry) : List AlertEntry :=
  (List.insertionSort (fun a b => a.impacto_RS ≤ b.impacto_RS) l).reverse

/-- The function `build_alert_panel(df)`: flag every row, keep the rows where either
detector fired, attach `zscore` and `impacto_R$`, and sort descending by
impact.  The flag columns are per-row functions of `df`, so the pandas
column assignment plus boolean-mask filter is the row-wise filter below. -/
def build_alert_panel (df : DataFrame) : List AlertEntry :=
  panelSort ((df.filter (fun r => flagAnyRow df r)).map (fun r => toEntry df r))

/-- The function `estimate_financial_impact(anomalies)`: `impacto_R$` summed and rounded
to 2 decimals. -/
def estimate_financial_impact (anomalies : List AlertEntry) : ℚ :=
  round2 ((anomalies.map (fun e => e.impacto_RS)).sum)

/-- The function `run_pipeline`: one full analysis run.  The first component is the
caller's dataset after the call: `build_alert_panel` works on `df.copy()`
(line 98 of the source) and assigns columns only to that copy, so the
caller's frame is returned unchanged. -/
def run_pipeline (df : DataFrame) : DataFrame × List AlertEntry × ℚ :=
  (df, build_alert_panel df, estimate_financial_impact (build_alert_panel df))

/-! ### Spec-side definitions (for refinement comparison)

These two definitions follow the specification's wording, to be compared
with the definitions translated from the code. -/

/-- The spec's "sample standard deviation", squared: variance with
`ddof = 1` (spec §4.1 wording for the Z-score signal). -/
def sampleVar (xs : List ℚ) : ℚ :=
  (xs.map (fun x => (x - mean xs) ^ 2)).sum / ((xs.length : ℚ) - 1)

/-- The spec's percentile (§4.1): "for percentile p, position = p×(n−1),
interpolate between the two nearest ranked values": the convex combination
of the order statistics at ranks `⌊h⌋` and `⌈h⌉`. -/
def specPercentile (xs : List ℚ) (p : ℚ) : ℚ :=
  let s := List.insertionSort (· ≤ ·) xs
  let h : ℚ := p * ((xs.length : ℚ) - 1)
  let g : ℚ := h - ((⌊h⌋ : ℤ) : ℚ)
  (1 - g) * s.getD (⌊h⌋).toNat 0 + g * s.getD (⌈h⌉).toNat 0

/-! ### The pipeline on frames with missing quantities

`main.py` passes `nan_policy="omit"` to `stats.zscore`, and pandas
`quantile`/comparison operators likewise skip NaN: a record whose `qtd`
cell is missing (NaN) is dropped from its group's statistics, scores as
NaN, and every NaN comparison is `False`.  A record with a missing
quantity is modelled with `qtd : Option ℚ`, `none` standing for NaN. -/

/-- A movement record whose `qtd` cell may be missing (NaN). -/
structure MovementRecordN where
  data : Nat
  unidade : String
  material : String
  tipo : String
  qtd : Option ℚ
  custo_unit : ℚ
deriving Repr, DecidableEq

/-- Group membership on possibly-malformed records. -/
def sameGroupN (r s : MovementRecordN) : Bool :=
  r.unidade == s.unidade && r.material == s.material

/-- The group's *present* quantity values: NaN cells are omitted from all
statistics (`nan_policy="omit"`, NaN-skipping `quantile`). -/
def groupQtdsN (df : List MovementRecordN) (r : MovementRecordN) : List ℚ :=
  (df.filter (fun s => sameGroupN r s)).filterMap (fun s => s.qtd)

/-- Z-score flag on a possibly-malformed row: a missing `qtd` scores NaN
and `NaN > t` is `False`; otherwise as `zscoreFlagRow`, with the group
statistics taken over the present values only. -/
def zscoreFlagRowN (df : List MovementRecordN) (z_thresh : ℚ)
    (r : MovementRecordN) : Bool :=
  match r.qtd with
  | none => false
  | some q => zscoreFlagVal (groupQtdsN df r) z_thresh q

/-- IQR flag on a possibly-malformed row: quantiles over the present
values; `NaN < lower` and `NaN > upper` are both `False`. -/
def iqrFlagRowN (df : List MovementRecordN) (k : ℚ) (r : MovementRecordN) : Bool :=
  match r.qtd with
  | none => false
  | some q => iqrFlagVal (groupQtdsN df r) k q

/-- The `flag_any` value on a possibly-malformed row. -/
def flagAnyRowN (df : List MovementRecordN) (r : MovementRecordN) : Bool :=
  [zscoreFlagRowN df 3 r, iqrFlagRowN df (3/2) r].any id

/-- Panel row from a retained possibly-malformed record.  A retained row
always has a present `qtd` (a NaN row is never flagged), so the `getD 0`
defaults are never reached in a panel. -/
def toEntryN (df : List MovementRecordN) (r : MovementRecordN) : AlertEntry :=
  { data := r.data
    unidade := r.unidade
    material := r.material
    tipo := r.tipo
    qtd := r.qtd.getD 0
    zscore := match r.qtd with
      | none => none
      | some q => zscoreVal (groupQtdsN df r) q
    flag_zscore := zscoreFlagRowN df 3 r
    flag_iqr := iqrFlagRowN df (3/2) r
    impacto_RS := round2 (|r.qtd.getD 0| * r.custo_unit) }

/-- The panel builder on a frame that may contain malformed records:
the computation completes normally, the malformed rows simply never
flagged. -/
def build_alert_panel_n (df : List MovementRecordN) : List AlertEntry :=
  panelSort ((df.filter (fun r => flagAnyRowN df r)).map (fun r => toEntryN df r))

/-! ### Concrete test inputs -/

/-- Shorthand for a record of the `saida` kind. -/
def mkRec (i : Nat) (u m : String) (q c : ℚ) : MovementRecord :=
  { data := i, unidade := u, material := m, tipo := "saida", qtd := q, custo_unit := c }

/-- Eleven records in one group with quantities `[0×9, 1, 10]`: mean 1,
population variance `90/11` (so the population Z-score of the last record
is `9/√(90/11) ≈ 3.146 > 3`), sample variance `9` (sample Z-score exactly
`3`, not `> 3`). -/
def dfBoundary : DataFrame :=
  (List.range 9).map (fun i => mkRec i "U01" "MAT-001" 0 1) ++
    [mkRec 9 "U01" "MAT-001" 1 1, mkRec 10 "U01" "MAT-001" 10 1]

/-- The quantity-10 record of `dfBoundary`. -/
def recBoundary : MovementRecord := mkRec 10 "U01" "MAT-001" 10 1

/-- Two groups, each with quantities `[0, 0, 0, 100]` and unit cost 1: the
two quantity-100 records are IQR outliers with the same impact 100, the
`U01` one generated before the `U02` one. -/
def dfTie : DataFrame :=
  [mkRec 0 "U01" "MAT-001" 0 1, mkRec 1 "U01" "MAT-001" 0 1,
   mkRec 2 "U01" "MAT-001" 0 1, mkRec 3 "U01" "MAT-001" 100 1,
   mkRec 4 "U02" "MAT-001" 0 1, mkRec 5 "U02" "MAT-001" 0 1,
   mkRec 6 "U02" "MAT-001" 0 1, mkRec 7 "U02" "MAT-001" 100 1]

/-- A constant group: three records with quantity 5. -/
def dfConst : DataFrame :=
  [mkRec 0 "U03" "MAT-002" 5 2, mkRec 1 "U03" "MAT-002" 5 2,
   mkRec 2 "U03" "MAT-002" 5 2]

/-- One record of `dfConst`. -/
def recConst : MovementRecord := mkRec 0 "U03" "MAT-002" 5 2

/-- The quantity-100 record of `dfTie`'s first group. -/
def recOutlier : MovementRecord := mkRec 3 "U01" "MAT-001" 100 1

/-- A frame with one malformed record (missing `qtd`, row 4) amid the
group `[0, 0, 0, 100]`. -/
def dfMalformed : List MovementRecordN :=
  [⟨0, "U01", "MAT-001", "saida", some 0, 1⟩,
   ⟨1, "U01", "MAT-001", "saida", some 0, 1⟩,
   ⟨2, "U01", "MAT-001", "saida", some 0, 1⟩,
   ⟨3, "U01", "MAT-001", "saida", some 100, 1⟩,
   ⟨4, "U01", "MAT-001", "saida", none, 1⟩]

/-- The malformed record of `dfMalformed`. -/
def recMalformed : MovementRecordN := ⟨4, "U01", "MAT-001", "saida", none, 1⟩

/-! ### Helper lemmas -/

theorem sameGroup_self (r : MovementRecord) : sameGroup r r = true := by
  simp [sameGroup]

theorem qtd_mem_groupQtds {df : DataFrame} {r : MovementRecord} (hr : r ∈ df) :
    r.qtd ∈ groupQtds df r := by
  exact List.mem_map.mpr ⟨r, List.mem_filter.mpr ⟨hr, sameGroup_self r⟩, rfl⟩

theorem popVar_nonneg (xs : List ℚ) : 0 ≤ popVar xs := by
  unfold popVar
  apply div_nonneg
  · exact List.sum_nonneg (by
      intro x hx
      obtain ⟨y, -, rfl⟩ := List.mem_map.mp hx
      positivity)
  · positivity

theorem mean_of_const {xs : List ℚ} {c : ℚ} (hne : xs ≠ [])
    (hc : ∀ q ∈ xs, q = c) : mean xs = c := by
  have hpos : 0 < xs.length := List.length_pos.mpr hne
  have hlen : (xs.length : ℚ) ≠ 0 := by
    exact_mod_cast Nat.pos_iff_ne_zero.mp hpos
  have hsum : xs.sum = xs.length • c := List.sum_eq_card_nsmul xs c hc
  rw [mean, hsum, nsmul_eq_mul, mul_div_cancel_left₀ _ hlen]

theorem popVar_of_const {xs : List ℚ} {c : ℚ}
    (hc : ∀ q ∈ xs, q = c) : popVar xs = 0 := by
  rcases eq_or_ne xs [] with rfl | hne
  · simp [popVar]
  · have hmean := mean_of_const hne hc
    unfold popVar
    rw [List.sum_eq_zero, zero_div]
    intro x hx
    obtain ⟨y, hy, rfl⟩ := List.mem_map.mp hx
    rw [hc y hy, hmean]
    ring

theorem popVar_eq_zero_of_short {xs : List ℚ} (h : xs.length ≤ 1) :
    popVar xs = 0 := by
  match xs, h with
  | [], _ => simp [popVar]
  | [a], _ => simp [popVar, mean]

theorem two_le_length_of_popVar_pos {xs : List ℚ} (h : 0 < popVar xs) :
    2 ≤ xs.length := by
  by_contra hlt
  rw [popVar_eq_zero_of_short (by omega)] at h
  exact lt_irrefl 0 h

theorem mem_build_alert_panel {df : DataFrame} {e : AlertEntry} :
    e ∈ build_alert_panel df ↔
      ∃ r, r ∈ df ∧ flagAnyRow df r = true ∧ toEntry df r = e := by
  simp only [build_alert_panel, panelSort, List.mem_reverse, List.mem_insertionSort,
    List.mem_map, List.mem_filter]
  constructor
  · rintro ⟨r, ⟨hr, hf⟩, he⟩
    exact ⟨r, hr, hf, he⟩
  · rintro ⟨r, hr, hf, he⟩
    exact ⟨r, ⟨hr, hf⟩, he⟩

theorem int_toNat_two : Int.toNat 2 = 2 := rfl

theorem quantileQ1_0_0_0_100 : quantileLinear [0, 0, 0, 100] (1/4) = 0 := by
  simp [quantileLinear]; norm_num

theorem quantileQ3_0_0_0_100 : quantileLinear [0, 0, 0, 100] (3/4) = 25 := by
  simp [quantileLinear]; norm_num [int_toNat_two]

theorem zscoreFlagVal_0_0_0_100_at0 : zscoreFlagVal [0, 0, 0, 100] 3 0 = false := by
  norm_num [zscoreFlagVal, mean, popVar]

theorem zscoreFlagVal_0_0_0_100_at100 : zscoreFlagVal [0, 0, 0, 100] 3 100 = false := by
  norm_num [zscoreFlagVal, mean, popVar]

theorem iqrFlagVal_0_0_0_100_at0 : iqrFlagVal [0, 0, 0, 100] (3/2) 0 = false := by
  simp only [iqrFlagVal, quantileQ1_0_0_0_100, quantileQ3_0_0_0_100]
  norm_num

theorem iqrFlagVal_0_0_0_100_at100 : iqrFlagVal [0, 0, 0, 100] (3/2) 100 = true := by
  simp only [iqrFlagVal, quantileQ1_0_0_0_100, quantileQ3_0_0_0_100]
  norm_num

theorem groupQtds_dfTie_U01 (i : Nat) (q : ℚ) :
    groupQtds dfTie (mkRec i "U01" "MAT-001" q 1) = [0, 0, 0, 100] := by
  simp [groupQtds, dfTie, sameGroup, mkRec]

theorem groupQtds_dfTie_U02 (i : Nat) (q : ℚ) :
    groupQtds dfTie (mkRec i "U02" "MAT-001" q 1) = [0, 0, 0, 100] := by
  simp [groupQtds, dfTie, sameGroup, mkRec]

theorem flagAny_dfTie_U01_zero (i : Nat) :
    flagAnyRow dfTie (mkRec i "U01" "MAT-001" 0 1) = false := by
  simp only [flagAnyRow, zscoreFlagRow, iqrFlagRow, groupQtds_dfTie_U01]
  simp only [mkRec]
  simp [zscoreFlagVal_0_0_0_100_at0, iqrFlagVal_0_0_0_100_at0]

theorem flagAny_dfTie_U02_zero (i : Nat) :
    flagAnyRow dfTie (mkRec i "U02" "MAT-001" 0 1) = false := by
  simp only [flagAnyRow, zscoreFlagRow, iqrFlagRow, groupQtds_dfTie_U02]
  simp only [mkRec]
  simp [zscoreFlagVal_0_0_0_100_at0, iqrFlagVal_0_0_0_100_at0]

theorem flagAny_dfTie_U01_100 :
    flagAnyRow dfTie (mkRec 3 "U01" "MAT-001" 100 1) = true := by
  simp only [flagAnyRow, zscoreFlagRow, iqrFlagRow, groupQtds_dfTie_U01]
  simp only [mkRec]
  simp [zscoreFlagVal_0_0_0_100_at100, iqrFlagVal_0_0_0_100_at100]

theorem flagAny_dfTie_U02_100 :
    flagAnyRow dfTie (mkRec 7 "U02" "MAT-001" 100 1) = true := by
  simp only [flagAnyRow, zscoreFlagRow, iqrFlagRow, groupQtds_dfTie_U02]
  simp only [mkRec]
  simp [zscoreFlagVal_0_0_0_100_at100, iqrFlagVal_0_0_0_100_at100]

theorem impacto_dfTie_100 (i : Nat) (u : String) :
    (toEntry dfTie (mkRec i u "MAT-001" 100 1)).impacto_RS = 100 := by
  simp only [toEntry, mkRec]
  norm_num [round2, roundHalfEven]

theorem panel_dfTie : build_alert_panel dfTie =
    [toEntry dfTie (mkRec 7 "U02" "MAT-001" 100 1),
     toEntry dfTie (mkRec 3 "U01" "MAT-001" 100 1)] := by
  have hfilter : dfTie.filter (fun r => flagAnyRow dfTie r) =
      [mkRec 3 "U01" "MAT-001" 100 1, mkRec 7 "U02" "MAT-001" 100 1] := by
    set F := fun r => flagAnyRow dfTie r with hF
    rw [show dfTie = [mkRec 0 "U01" "MAT-001" 0 1, mkRec 1 "U01" "MAT-001" 0 1,
      mkRec 2 "U01" "MAT-001" 0 1, mkRec 3 "U01" "MAT-001" 100 1,
      mkRec 4 "U02" "MAT-001" 0 1, mkRec 5 "U02" "MAT-001" 0 1,
      mkRec 6 "U02" "MAT-001" 0 1, mkRec 7 "U02" "MAT-001" 100 1] from rfl]
    simp only [List.filter_cons, List.filter_nil, hF,
      flagAny_dfTie_U01_zero, flagAny_dfTie_U02_zero,
      flagAny_dfTie_U01_100, flagAny_dfTie_U02_100]
    simp
  unfold build_alert_panel
  rw [hfilter]
  simp only [List.map_cons, List.map_nil, panelSort, List.insertionSort,
    List.orderedInsert]
  rw [if_pos (by rw [impacto_dfTie_100, impacto_dfTie_100])]
  simp

theorem groupQtdsN_dfMalformed (i : Nat) (q : Option ℚ) :
    groupQtdsN dfMalformed ⟨i, "U01", "MAT-001", "saida", q, 1⟩ = [0, 0, 0, 100] := by
  simp [groupQtdsN, dfMalformed, sameGroupN, List.filterMap]

theorem flagAnyN_dfMalformed_zero (i : Nat) :
    flagAnyRowN dfMalformed ⟨i, "U01", "MAT-001", "saida", some 0, 1⟩ = false := by
  simp only [flagAnyRowN, zscoreFlagRowN, iqrFlagRowN, groupQtdsN_dfMalformed]
  simp [zscoreFlagVal_0_0_0_100_at0, iqrFlagVal_0_0_0_100_at0]

theorem flagAnyN_dfMalformed_100 :
    flagAnyRowN dfMalformed ⟨3, "U01", "MAT-001", "saida", some 100, 1⟩ = true := by
  simp only [flagAnyRowN, zscoreFlagRowN, iqrFlagRowN, groupQtdsN_dfMalformed]
  simp [zscoreFlagVal_0_0_0_100_at100, iqrFlagVal_0_0_0_100_at100]

theorem flagAnyN_none (df : List MovementRecordN) (r : MovementRecordN)
    (hq : r.qtd = none) : flagAnyRowN df r = false := by
  simp [flagAnyRowN, zscoreFlagRowN, iqrFlagRowN, hq]

theorem panel_dfMalformed : build_alert_panel_n dfMalformed =
    [toEntryN dfMalformed ⟨3, "U01", "MAT-001", "saida", some 100, 1⟩] := by
  have hfilter : dfMalformed.filter (fun r => flagAnyRowN dfMalformed r) =
      [⟨3, "U01", "MAT-001", "saida", some 100, 1⟩] := by
    set F := fun r => flagAnyRowN dfMalformed r with hF
    rw [show dfMalformed = [⟨0, "U01", "MAT-001", "saida", some 0, 1⟩,
      ⟨1, "U01", "MAT-001", "saida", some 0, 1⟩,
      ⟨2, "U01", "MAT-001", "saida", some 0, 1⟩,
      ⟨3, "U01", "MAT-001", "saida", some 100, 1⟩,
      ⟨4, "U01", "MAT-001", "saida", none, 1⟩] from rfl]
    simp only [List.filter_cons, List.filter_nil, hF,
      flagAnyN_dfMalformed_zero, flagAnyN_dfMalformed_100,
      flagAnyN_none dfMalformed ⟨4, "U01", "MAT-001", "saida", none, 1⟩ rfl]
    simp
  unfold build_alert_panel_n
  rw [hfilter]
  simp [panelSort]

theorem roundHalfEven_intCast (k : ℤ) : roundHalfEven (k : ℚ) = k := by
  norm_num [roundHalfEven, Int.floor_intCast]

theorem round2_hundredth (k : ℤ) : round2 ((k : ℚ) / 100) = (k : ℚ) / 100 := by
  unfold round2
  rw [mul_div_assoc', mul_comm, mul_div_assoc, div_self (by norm_num : (100:ℚ) ≠ 0),
    mul_one, roundHalfEven_intCast]

theorem sum_impacto_hundredth (l : List AlertEntry)
    (h : ∀ e ∈ l, ∃ j : ℤ, e.impacto_RS = (j : ℚ) / 100) :
    ∃ K : ℤ, (l.map (fun e => e.impacto_RS)).sum = (K : ℚ) / 100 := by
  induction l with
  | nil => exact ⟨0, by simp⟩
  | cons a l ih =>
    obtain ⟨j, hj⟩ := h a (List.mem_cons_self a l)
    obtain ⟨K, hK⟩ := ih (fun e he => h e (List.mem_cons_of_mem a he))
    refine ⟨j + K, ?_⟩
    simp only [List.map_cons, List.sum_cons, hj, hK]
    push_cast
    ring

/-! ### Claim theorems -/

/-- C3: for every record, the combined flag (`flag_any`) equals
`zscore_flag OR iqr_flag`, and an entry appears in the alert panel iff it
is the panel row of some record of the frame whose combined flag is true —
in particular no non-flagged record ever appears in the panel. -/
theorem C3_flag_fusion_and_panel_membership (df : DataFrame)
    (r : MovementRecord) (e : AlertEntry) :
    flagAnyRow df r = (zscoreFlagRow df 3 r || iqrFlagRow df (3/2) r) ∧
      (e ∈ build_alert_panel df ↔
        ∃ s, s ∈ df ∧ flagAnyRow df s = true ∧ toEntry df s = e) := by
  constructor
  · simp [flagAnyRow]
  · exact mem_build_alert_panel

/-- C5: in a group whose quantity values are all identical (σ = 0), the
Z-score signal never flags any record, whatever the threshold: the
undefined score is "no signal", never anomalous. -/
theorem C5_constant_group_never_zscore_flagged (df : DataFrame) (t : ℚ)
    (r : MovementRecord) (_hr : r ∈ df) (c : ℚ)
    (hc : ∀ q ∈ groupQtds df r, q = c) :
    zscoreFlagRow df t r = false := by
  have hv : popVar (groupQtds df r) = 0 := popVar_of_const hc
  simp [zscoreFlagRow, zscoreFlagVal, hv]

/-- Witness for C5 at the constant group `dfConst` (quantities `[5, 5, 5]`,
threshold 0). -/
theorem C5_constant_group_never_zscore_flagged_witness :
    zscoreFlagRow dfConst 0 recConst = false := by
  have hc : ∀ q ∈ groupQtds dfConst recConst, q = 5 := by
    intro q hq
    simp only [groupQtds, dfConst, recConst, sameGroup, mkRec] at hq
    simp at hq
    exact hq
  exact C5_constant_group_never_zscore_flagged dfConst 0 recConst
    (by simp [dfConst, recConst]) 5 hc

/-- C6: `estimate_financial_impact` returns the sum of `impacto_R$` over
the panel rounded to 2 decimals; on the empty panel it is exactly 0; and
on any panel produced by `build_alert_panel` the rounding is the identity
(each impact is already a whole number of hundredths). -/
theorem C6_impact_aggregation :
    (∀ p : List AlertEntry,
        estimate_financial_impact p = round2 ((p.map (fun e => e.impacto_RS)).sum)) ∧
      estimate_financial_impact [] = 0 ∧
      (∀ df : DataFrame,
        estimate_financial_impact (build_alert_panel df) =
          ((build_alert_panel df).map (fun e => e.impacto_RS)).sum) := by
  refine ⟨fun p => rfl, ?_, fun df => ?_⟩
  · show round2 0 = 0
    norm_num [round2, roundHalfEven]
  · have himp : ∀ e ∈ build_alert_panel df, ∃ j : ℤ, e.impacto_RS = (j : ℚ) / 100 := by
      intro e he
      obtain ⟨s, -, -, hs⟩ := mem_build_alert_panel.mp he
      exact ⟨roundHalfEven (100 * (|s.qtd| * s.custo_unit)), by rw [← hs]; rfl⟩
    obtain ⟨K, hK⟩ := sum_impacto_hundredth _ himp
    show round2 _ = _
    rw [hK, round2_hundredth]

/-- C9: the empty input dataset is not an error: the panel is empty and
the aggregate impact is zero. -/
theorem C9_empty_input_empty_panel :
    build_alert_panel [] = [] ∧
      estimate_financial_impact (build_alert_panel []) = 0 := by
  refine ⟨rfl, ?_⟩
  show round2 0 = 0
  norm_num [round2, roundHalfEven]

/-- C10: the pipeline is deterministic and leaves its input unchanged
(`build_alert_panel` copies the frame before annotating it, main.py line
98): running it twice on the dataset returned by the first run yields the
same panel and total impact. -/
theorem C10_pipeline_idempotent (df : DataFrame) :
    (run_pipeline df).1 = df ∧
      run_pipeline ((run_pipeline df).1) = run_pipeline df :=
  ⟨rfl, rfl⟩

theorem specPercentile_eq_quantileLinear (xs : List ℚ) (p : ℚ) (hne : xs ≠ [])
    (hp0 : 0 ≤ p) (hp1 : p ≤ 1) : specPercentile xs p = quantileLinear xs p := by
  have hlen : xs.length ≠ 0 := fun h => hne (List.length_eq_zero.mp h)
  have hn1 : (1 : ℚ) ≤ (xs.length : ℚ) := by
    exact_mod_cast Nat.one_le_iff_ne_zero.mpr hlen
  have hh0 : 0 ≤ p * ((xs.length : ℚ) - 1) := mul_nonneg hp0 (by linarith)
  have hhle : p * ((xs.length : ℚ) - 1) ≤ (xs.length : ℚ) - 1 := by
    calc p * ((xs.length : ℚ) - 1) ≤ 1 * ((xs.length : ℚ) - 1) :=
          mul_le_mul_of_nonneg_right hp1 (by linarith)
      _ = (xs.length : ℚ) - 1 := one_mul _
  set h : ℚ := p * ((xs.length : ℚ) - 1) with hh
  have hf0 : 0 ≤ ⌊h⌋ := Int.floor_nonneg.mpr hh0
  have hcast : (((⌊h⌋).toNat : ℕ) : ℚ) = ((⌊h⌋ : ℤ) : ℚ) := by
    exact_mod_cast congrArg (fun z : ℤ => (z : ℚ)) (Int.toNat_of_nonneg hf0)
  simp only [specPercentile, quantileLinear, if_neg hlen, ← hh]
  rcases eq_or_lt_of_le (Int.floor_le h) with heq | hlt
  · have hceil : ⌈h⌉ = ⌊h⌋ := by
      rw [← heq]
      simp
    have hzero : h - ((⌊h⌋ : ℤ) : ℚ) = 0 := sub_eq_zero_of_eq heq.symm
    rw [hceil, hcast, hzero]
    ring
  · have hceil : ⌈h⌉ = ⌊h⌋ + 1 := by
      refine le_antisymm (Int.ceil_le_floor_add_one h) ?_
      have h1 : (⌊h⌋ : ℚ) < (⌈h⌉ : ℚ) := lt_of_lt_of_le hlt (Int.le_ceil h)
      have h2 : ⌊h⌋ < ⌈h⌉ := by exact_mod_cast h1
      omega
    have hhlt : h < (xs.length : ℚ) - 1 := by
      rcases lt_or_eq_of_le hhle with h2 | h2
      · exact h2
      · exfalso
        have h3 : ⌊h⌋ = (xs.length : ℤ) - 1 := by
          rw [h2, show ((xs.length : ℚ) - 1) = (((xs.length : ℤ) - 1 : ℤ) : ℚ)
            by push_cast; ring]
          exact Int.floor_intCast _
        rw [h3] at hlt
        push_cast at hlt
        rw [h2] at hlt
        exact lt_irrefl _ hlt
    have hfn : (⌊h⌋).toNat + 1 < (List.insertionSort (· ≤ ·) xs).length := by
      rw [List.length_insertionSort]
      have : ⌊h⌋ < (xs.length : ℤ) - 1 := by
        rw [Int.floor_lt]
        push_cast
        exact hhlt
      omega
    have hf : (⌊h⌋).toNat < (List.insertionSort (· ≤ ·) xs).length := by omega
    have htn : (⌈h⌉).toNat = (⌊h⌋).toNat + 1 := by omega
    rw [htn, List.getD_eq_getElem _ _ hf]
    rw [List.getD_eq_getElem _ _ hfn]
    rw [List.getD_eq_getElem _ _ hfn]
    rw [hcast]
    ring

/-- C4: the IQR flag fires exactly when the quantity lies outside
`[Q1 − k·IQR, Q3 + k·IQR]`, with `Q1`/`Q3` the 25th/75th percentiles of
the group's quantities computed by linear interpolation between order
statistics (the spec's formulation, `specPercentile`). -/
theorem C4_iqr_flag_characterization (df : DataFrame) (k : ℚ)
    (r : MovementRecord) (hr : r ∈ df) :
    iqrFlagRow df k r = true ↔
      (r.qtd < specPercentile (groupQtds df r) (1/4) -
          k * (specPercentile (groupQtds df r) (3/4) -
            specPercentile (groupQtds df r) (1/4)) ∨
        specPercentile (groupQtds df r) (3/4) +
          k * (specPercentile (groupQtds df r) (3/4) -
            specPercentile (groupQtds df r) (1/4)) < r.qtd) := by
  have hne : groupQtds df r ≠ [] := List.ne_nil_of_mem (qtd_mem_groupQtds hr)
  rw [specPercentile_eq_quantileLinear _ _ hne (by norm_num) (by norm_num),
    specPercentile_eq_quantileLinear _ _ hne (by norm_num) (by norm_num)]
  simp [iqrFlagRow, iqrFlagVal]

/-- Witness for C4 at `dfTie`'s outlier record (`qtd = 100`), `k = 3/2`. -/
theorem C4_iqr_flag_characterization_witness :
    iqrFlagRow dfTie (3/2) recOutlier = true ↔
      (recOutlier.qtd < specPercentile (groupQtds dfTie recOutlier) (1/4) -
          (3/2) * (specPercentile (groupQtds dfTie recOutlier) (3/4) -
            specPercentile (groupQtds dfTie recOutlier) (1/4)) ∨
        specPercentile (groupQtds dfTie recOutlier) (3/4) +
          (3/2) * (specPercentile (groupQtds dfTie recOutlier) (3/4) -
            specPercentile (groupQtds dfTie recOutlier) (1/4)) < recOutlier.qtd) :=
  C4_iqr_flag_characterization dfTie (3/2) recOutlier
    (by simp [dfTie, recOutlier, mkRec])

/-- C1 (amended): the Z-score signal uses the *population* standard
deviation (`scipy.stats.zscore`'s default `ddof = 0`), not the sample
one: the flag column is the per-row map of `zscoreFlagRow`, and a row is
flagged iff its group has at least 2 values, positive population variance,
and `|quantity − μ| > t·σ` (over `ℝ`, `σ = √(population variance)`);
groups with fewer than 2 values are never flagged. -/
theorem C1_zscore_flag_population (df : DataFrame) (t : ℚ) (ht : 0 ≤ t)
    (r : MovementRecord) (hr : r ∈ df) :
    calc_zscore_flags df t = df.map (fun s => zscoreFlagRow df t s) ∧
      (zscoreFlagRow df t r = true ↔
        (2 ≤ (groupQtds df r).length ∧ 0 < popVar (groupQtds df r) ∧
          (t : ℝ) * Real.sqrt ((popVar (groupQtds df r) : ℚ) : ℝ) <
            |((r.qtd : ℚ) : ℝ) - ((mean (groupQtds df r) : ℚ) : ℝ)|)) := by
  refine ⟨rfl, ?_⟩
  have _hmem := qtd_mem_groupQtds hr
  simp only [zscoreFlagRow, zscoreFlagVal, decide_eq_true_eq]
  have ht' : (0 : ℝ) ≤ (t : ℝ) := by exact_mod_cast ht
  constructor
  · rintro ⟨hv, hlt⟩
    refine ⟨two_le_length_of_popVar_pos hv, hv, ?_⟩
    have hv' : (0 : ℝ) ≤ ((popVar (groupQtds df r) : ℚ) : ℝ) := by
      exact_mod_cast popVar_nonneg _
    have hlt' : ((t : ℝ)) ^ 2 * ((popVar (groupQtds df r) : ℚ) : ℝ) <
        (((r.qtd : ℚ) : ℝ) - ((mean (groupQtds df r) : ℚ) : ℝ)) ^ 2 := by
      exact_mod_cast hlt
    have h1 : (t : ℝ) * Real.sqrt ((popVar (groupQtds df r) : ℚ) : ℝ) =
        Real.sqrt ((t : ℝ) ^ 2 * ((popVar (groupQtds df r) : ℚ) : ℝ)) := by
      rw [Real.sqrt_mul (sq_nonneg _), Real.sqrt_sq ht']
    have h2 : |((r.qtd : ℚ) : ℝ) - ((mean (groupQtds df r) : ℚ) : ℝ)| =
        Real.sqrt ((((r.qtd : ℚ) : ℝ) - ((mean (groupQtds df r) : ℚ) : ℝ)) ^ 2) :=
      (Real.sqrt_sq_eq_abs _).symm
    rw [h1, h2]
    exact Real.sqrt_lt_sqrt (by positivity) hlt'
  · rintro ⟨-, hv, hlt⟩
    refine ⟨hv, ?_⟩
    have hv' : (0 : ℝ) ≤ ((popVar (groupQtds df r) : ℚ) : ℝ) := by
      exact_mod_cast popVar_nonneg _
    have hsq : ((t : ℝ) * Real.sqrt ((popVar (groupQtds df r) : ℚ) : ℝ)) ^ 2 <
        |((r.qtd : ℚ) : ℝ) - ((mean (groupQtds df r) : ℚ) : ℝ)| ^ 2 :=
      pow_lt_pow_left₀ hlt (by positivity) (by norm_num)
    rw [mul_pow, Real.sq_sqrt hv', sq_abs] at hsq
    have : (t : ℚ) ^ 2 * popVar (groupQtds df r) <
        (r.qtd - mean (groupQtds df r)) ^ 2 := by
      have := hsq
      push_cast at this
      exact_mod_cast this
    exact this

/-- Witness for C1 (amended) at `dfBoundary`, threshold 3, record with
quantity 10. -/
theorem C1_zscore_flag_population_witness :
    calc_zscore_flags dfBoundary 3 =
        dfBoundary.map (fun s => zscoreFlagRow dfBoundary 3 s) ∧
      (zscoreFlagRow dfBoundary 3 recBoundary = true ↔
        (2 ≤ (groupQtds dfBoundary recBoundary).length ∧
          0 < popVar (groupQtds dfBoundary recBoundary) ∧
          (3 : ℝ) * Real.sqrt ((popVar (groupQtds dfBoundary recBoundary) : ℚ) : ℝ) <
            |((recBoundary.qtd : ℚ) : ℝ) -
              ((mean (groupQtds dfBoundary recBoundary) : ℚ) : ℝ)|)) := by
  have h := C1_zscore_flag_population dfBoundary 3 (by norm_num) recBoundary
    (by simp [dfBoundary, recBoundary, mkRec])
  exact_mod_cast h

/-- C1 counterexample: the claim prescribes the *sample* standard
deviation.  On the group `[0×9, 1, 10]` the quantity-10 record has sample
Z-score exactly 3 (sample variance 9, mean 1), which is not `> 3`, so per
the claim it must not be flagged — yet `calc_zscore_flags` flags it (its
population Z-score is `≈ 3.146 > 3`). -/
theorem C1_sample_std_counterexample :
    zscoreFlagRow dfBoundary 3 recBoundary = true ∧
      sampleVar (groupQtds dfBoundary recBoundary) = 9 ∧
      mean (groupQtds dfBoundary recBoundary) = 1 ∧
      ¬ ((3 : ℝ) * Real.sqrt ((sampleVar (groupQtds dfBoundary recBoundary) : ℚ) : ℝ) <
          |((recBoundary.qtd : ℚ) : ℝ) -
            ((mean (groupQtds dfBoundary recBoundary) : ℚ) : ℝ)|) := by
  have hg : groupQtds dfBoundary recBoundary = [0, 0, 0, 0, 0, 0, 0, 0, 0, 1, 10] := by
    norm_num [groupQtds, dfBoundary, recBoundary, sameGroup, mkRec,
      List.range, List.range.loop]
  have h9 : sampleVar (groupQtds dfBoundary recBoundary) = 9 := by
    rw [hg]
    norm_num [sampleVar, mean]
  have h1 : mean (groupQtds dfBoundary recBoundary) = 1 := by
    rw [hg]
    norm_num [mean]
  refine ⟨?_, h9, h1, ?_⟩
  · rw [zscoreFlagRow, hg]
    norm_num [zscoreFlagVal, mean, popVar, recBoundary, mkRec]
  · rw [h9, h1]
    have hs : Real.sqrt (((9 : ℚ) : ℝ)) = 3 := by
      rw [show (((9 : ℚ)) : ℝ) = (3 : ℝ) ^ 2 by norm_num]
      exact Real.sqrt_sq (by norm_num)
    rw [hs]
    norm_num [recBoundary, mkRec]

theorem mem_build_alert_panel_n {df : List MovementRecordN} {e : AlertEntry} :
    e ∈ build_alert_panel_n df ↔
      ∃ r, r ∈ df ∧ flagAnyRowN df r = true ∧ toEntryN df r = e := by
  simp only [build_alert_panel_n, panelSort, List.mem_reverse, List.mem_insertionSort,
    List.mem_map, List.mem_filter]
  constructor
  · rintro ⟨r, ⟨hr, hf⟩, he⟩
    exact ⟨r, hr, hf, he⟩
  · rintro ⟨r, hr, hf, he⟩
    exact ⟨r, ⟨hr, hf⟩, he⟩

/-- C7 (amended): a record with a missing quantity is *silently skipped*,
not rejected: its Z-score is NaN (flag false), its IQR comparisons are
false, the run completes, and every panel entry originates from a record
whose quantity is present and flagged. -/
theorem C7_missing_quantity_silently_skipped (df : List MovementRecordN)
    (r : MovementRecordN) (_hr : r ∈ df) (hq : r.qtd = none) :
    zscoreFlagRowN df 3 r = false ∧ iqrFlagRowN df (3/2) r = false ∧
      ∀ e ∈ build_alert_panel_n df,
        ∃ s, s ∈ df ∧ s.qtd ≠ none ∧ flagAnyRowN df s = true ∧
          toEntryN df s = e := by
  refine ⟨by simp [zscoreFlagRowN, hq], by simp [iqrFlagRowN, hq], ?_⟩
  intro e he
  obtain ⟨s, hs, hf, hes⟩ := mem_build_alert_panel_n.mp he
  refine ⟨s, hs, ?_, hf, hes⟩
  intro hnone
  rw [flagAnyN_none df s hnone] at hf
  exact Bool.false_ne_true hf

/-- Witness for C7 (amended) at `dfMalformed` and its missing-quantity
record. -/
theorem C7_missing_quantity_silently_skipped_witness :
    zscoreFlagRowN dfMalformed 3 recMalformed = false ∧
      iqrFlagRowN dfMalformed (3/2) recMalformed = false ∧
      ∀ e ∈ build_alert_panel_n dfMalformed,
        ∃ s, s ∈ dfMalformed ∧ s.qtd ≠ none ∧ flagAnyRowN dfMalformed s = true ∧
          toEntryN dfMalformed s = e :=
  C7_missing_quantity_silently_skipped dfMalformed recMalformed
    (by simp [dfMalformed, recMalformed]) rfl

/-- C7 counterexample: the frame `dfMalformed` contains a malformed record (missing
quantity), yet the run is not rejected: the pipeline completes normally,
producing the one-entry panel of the quantity-100 outlier, with the
malformed record never flagged (silently skipped). -/
theorem C7_malformed_run_not_rejected :
    recMalformed ∈ dfMalformed ∧ recMalformed.qtd = none ∧
      build_alert_panel_n dfMalformed =
        [toEntryN dfMalformed ⟨3, "U01", "MAT-001", "saida", some 100, 1⟩] ∧
      flagAnyRowN dfMalformed recMalformed = false :=
  ⟨by simp [dfMalformed, recMalformed], rfl, panel_dfMalformed,
    flagAnyN_none _ _ rfl⟩

theorem rat_cast_eq_toNat_div (x : ℚ) (hx : 0 ≤ x) :
    ((x : ℚ) : ℝ) = (x.num.toNat : ℝ) / (x.den : ℝ) := by
  have hnum : (x.num.toNat : ℤ) = x.num := Int.toNat_of_nonneg (Rat.num_nonneg.mpr hx)
  rw [Rat.cast_def]
  congr 1
  exact_mod_cast (congrArg (fun z : ℤ => (z : ℝ)) hnum).symm

theorem ratSqrtFloor_le_sqrt (x : ℚ) (hx : 0 ≤ x) :
    ((ratSqrtFloor x : ℕ) : ℝ) ≤ Real.sqrt ((x : ℚ) : ℝ) := by
  have hb : 0 < x.den := x.pos
  have hbr : (0 : ℝ) < (x.den : ℝ) := by exact_mod_cast hb
  have hxr : (0 : ℝ) ≤ ((x : ℚ) : ℝ) := by exact_mod_cast hx
  rw [Real.le_sqrt (by positivity) hxr, rat_cast_eq_toNat_div x hx,
    le_div_iff₀ hbr]
  have h1 : ratSqrtFloor x * x.den ≤ Nat.sqrt (x.num.toNat * x.den) :=
    Nat.div_mul_le_self _ _
  have h2 : Nat.sqrt (x.num.toNat * x.den) * Nat.sqrt (x.num.toNat * x.den) ≤
      x.num.toNat * x.den := Nat.sqrt_le _
  have h3 : (ratSqrtFloor x * x.den) * (ratSqrtFloor x * x.den) ≤
      x.num.toNat * x.den := le_trans (Nat.mul_le_mul h1 h1) h2
  have h4 : (ratSqrtFloor x * ratSqrtFloor x * x.den) * x.den ≤
      x.num.toNat * x.den := by
    calc (ratSqrtFloor x * ratSqrtFloor x * x.den) * x.den
        = (ratSqrtFloor x * x.den) * (ratSqrtFloor x * x.den) := by ring
      _ ≤ x.num.toNat * x.den := h3
  have h5 : ratSqrtFloor x * ratSqrtFloor x * x.den ≤ x.num.toNat :=
    Nat.le_of_mul_le_mul_right h4 hb
  have h6 : ((ratSqrtFloor x * ratSqrtFloor x * x.den : ℕ) : ℝ) ≤
      ((x.num.toNat : ℕ) : ℝ) := by exact_mod_cast h5
  push_cast at h6 ⊢
  nlinarith [h6]

theorem sqrt_lt_ratSqrtFloor_succ (x : ℚ) (hx : 0 ≤ x) :
    Real.sqrt ((x : ℚ) : ℝ) < ((ratSqrtFloor x : ℕ) : ℝ) + 1 := by
  have hb : 0 < x.den := x.pos
  have hbr : (0 : ℝ) < (x.den : ℝ) := by exact_mod_cast hb
  rw [Real.sqrt_lt' (by positivity), rat_cast_eq_toNat_div x hx,
    div_lt_iff₀ hbr]
  have h1 : Nat.sqrt (x.num.toNat * x.den) < (ratSqrtFloor x + 1) * x.den :=
    (Nat.div_lt_iff_lt_mul hb).mp (Nat.lt_succ_self _)
  have h2 : x.num.toNat * x.den <
      (Nat.sqrt (x.num.toNat * x.den) + 1) * (Nat.sqrt (x.num.toNat * x.den) + 1) :=
    Nat.lt_succ_sqrt _
  have h3 : Nat.sqrt (x.num.toNat * x.den) + 1 ≤ (ratSqrtFloor x + 1) * x.den :=
    Nat.succ_le_of_lt h1
  have h4 : x.num.toNat * x.den <
      ((ratSqrtFloor x + 1) * x.den) * ((ratSqrtFloor x + 1) * x.den) :=
    lt_of_lt_of_le h2 (Nat.mul_le_mul h3 h3)
  have h5 : x.num.toNat * x.den <
      ((ratSqrtFloor x + 1) * (ratSqrtFloor x + 1) * x.den) * x.den := by
    calc x.num.toNat * x.den
        < ((ratSqrtFloor x + 1) * x.den) * ((ratSqrtFloor x + 1) * x.den) := h4
      _ = ((ratSqrtFloor x + 1) * (ratSqrtFloor x + 1) * x.den) * x.den := by ring
  have h6 : x.num.toNat < (ratSqrtFloor x + 1) * (ratSqrtFloor x + 1) * x.den :=
    Nat.lt_of_mul_lt_mul_right h5
  have h7 : ((x.num.toNat : ℕ) : ℝ) <
      (((ratSqrtFloor x + 1) * (ratSqrtFloor x + 1) * x.den : ℕ) : ℝ) := by
    exact_mod_cast h6
  push_cast at h7 ⊢
  nlinarith [h7]

theorem zscoreVal_eq_none (xs : List ℚ) (q : ℚ) (h : popVar xs = 0) :
    zscoreVal xs q = none := by
  simp [zscoreVal, h]

theorem roundHundredth_sqrt_bound (zsq : ℚ) (hz : 0 ≤ zsq) :
    |(((if ((2 * ratSqrtFloor (10000 * zsq) + 1 : ℕ) : ℚ) ^ 2 < 40000 * zsq
          then ratSqrtFloor (10000 * zsq) + 1
          else if 40000 * zsq < ((2 * ratSqrtFloor (10000 * zsq) + 1 : ℕ) : ℚ) ^ 2
            then ratSqrtFloor (10000 * zsq)
            else if ratSqrtFloor (10000 * zsq) % 2 = 0 then ratSqrtFloor (10000 * zsq)
              else ratSqrtFloor (10000 * zsq) + 1 : ℕ) : ℚ) : ℝ) / 100
      - Real.sqrt ((zsq : ℚ) : ℝ)| ≤ 1 / 200 := by
  have hx : (0 : ℚ) ≤ 10000 * zsq := by positivity
  have hle0 := ratSqrtFloor_le_sqrt (10000 * zsq) hx
  have hlt0 := sqrt_lt_ratSqrtFloor_succ (10000 * zsq) hx
  set m : ℕ := ratSqrtFloor (10000 * zsq) with hm
  set S : ℝ := Real.sqrt ((zsq : ℚ) : ℝ) with hSdef
  have hsq : Real.sqrt (((10000 * zsq : ℚ)) : ℝ) = 100 * S := by
    rw [hSdef, show (((10000 * zsq : ℚ)) : ℝ) = 100 ^ 2 * ((zsq : ℚ) : ℝ) by
        push_cast; ring,
      Real.sqrt_mul (by positivity) _, Real.sqrt_sq (by norm_num)]
  rw [hsq] at hle0 hlt0
  have hS0 : 0 ≤ S := Real.sqrt_nonneg _
  by_cases hA : ((2 * m + 1 : ℕ) : ℚ) ^ 2 < 40000 * zsq
  · rw [if_pos hA]
    have hAr : (2 * (m : ℝ) + 1) ^ 2 < 40000 * ((zsq : ℚ) : ℝ) := by
      exact_mod_cast hA
    have hmid : (m : ℝ) + 1 / 2 < 100 * S := by
      have h1 : ((m : ℝ) + 1 / 2) < Real.sqrt (((10000 * zsq : ℚ)) : ℝ) := by
        rw [Real.lt_sqrt (by positivity)]
        push_cast
        nlinarith [hAr]
      rw [hsq] at h1
      exact h1
    push_cast
    rw [abs_le]
    constructor <;> nlinarith [hmid, hlt0]
  · rw [if_neg hA]
    by_cases hB : 40000 * zsq < ((2 * m + 1 : ℕ) : ℚ) ^ 2
    · rw [if_pos hB]
      have hBr : 40000 * ((zsq : ℚ) : ℝ) < (2 * (m : ℝ) + 1) ^ 2 := by
        exact_mod_cast hB
      have hmid : 100 * S < (m : ℝ) + 1 / 2 := by
        have h1 : Real.sqrt (((10000 * zsq : ℚ)) : ℝ) < (m : ℝ) + 1 / 2 := by
          rw [Real.sqrt_lt' (by positivity)]
          push_cast
          nlinarith [hBr]
        rw [hsq] at h1
        exact h1
      push_cast
      rw [abs_le]
      constructor <;> nlinarith [hmid, hle0]
    · rw [if_neg hB]
      have heq : ((2 * m + 1 : ℕ) : ℚ) ^ 2 = 40000 * zsq :=
        le_antisymm (not_lt.mp hB) (not_lt.mp hA)
      have heqr : (2 * (m : ℝ) + 1) ^ 2 = 40000 * ((zsq : ℚ) : ℝ) := by
        exact_mod_cast heq
      have hSeq : 100 * S = (m : ℝ) + 1 / 2 := by
        have h10 : (((10000 * zsq : ℚ)) : ℝ) = ((m : ℝ) + 1 / 2) ^ 2 := by
          push_cast
          nlinarith [heqr]
        have h1 : Real.sqrt (((10000 * zsq : ℚ)) : ℝ) = (m : ℝ) + 1 / 2 := by
          rw [h10, Real.sqrt_sq (by positivity)]
        rw [hsq] at h1
        exact h1
      by_cases hC : m % 2 = 0
      · rw [if_pos hC]
        push_cast
        rw [abs_le]
        constructor <;> nlinarith [hSeq]
      · rw [if_neg hC]
        push_cast
        rw [abs_le]
        constructor <;> nlinarith [hSeq]

theorem zscoreVal_approx (xs : List ℚ) (q : ℚ) (hv : 0 < popVar xs) :
    ∃ z' : ℚ, zscoreVal xs q = some z' ∧
      |((z' : ℚ) : ℝ) - ((q - mean xs : ℚ) : ℝ) /
        Real.sqrt ((popVar xs : ℚ) : ℝ)| ≤ 1 / 200 := by
  have hvr : (0 : ℝ) < ((popVar xs : ℚ) : ℝ) := by exact_mod_cast hv
  have hSpos : 0 < Real.sqrt ((popVar xs : ℚ) : ℝ) := Real.sqrt_pos.mpr hvr
  simp only [zscoreVal]
  rw [if_neg hv.ne']
  refine ⟨_, rfl, ?_⟩
  set zsq : ℚ := (q - mean xs) ^ 2 / popVar xs with hzsq
  have hz : 0 ≤ zsq := by
    rw [hzsq]
    positivity
  have hkey := roundHundredth_sqrt_bound zsq hz
  set M : ℕ := if ((2 * ratSqrtFloor (10000 * zsq) + 1 : ℕ) : ℚ) ^ 2 < 40000 * zsq
      then ratSqrtFloor (10000 * zsq) + 1
      else if 40000 * zsq < ((2 * ratSqrtFloor (10000 * zsq) + 1 : ℕ) : ℚ) ^ 2
        then ratSqrtFloor (10000 * zsq)
        else if ratSqrtFloor (10000 * zsq) % 2 = 0 then ratSqrtFloor (10000 * zsq)
          else ratSqrtFloor (10000 * zsq) + 1 with hM
  set T : ℝ := ((q - mean xs : ℚ) : ℝ) / Real.sqrt ((popVar xs : ℚ) : ℝ) with hT
  have hT2 : T ^ 2 = ((zsq : ℚ) : ℝ) := by
    rw [hT, div_pow, Real.sq_sqrt hvr.le, hzsq]
    push_cast
    ring
  have habs : |T| = Real.sqrt ((zsq : ℚ) : ℝ) := by
    rw [← hT2, Real.sqrt_sq_eq_abs]
  rw [← habs] at hkey
  push_cast at hkey
  by_cases hsign : q < mean xs
  · rw [if_pos hsign]
    have hd : ((q - mean xs : ℚ) : ℝ) < 0 := by
      have h0 : (q - mean xs : ℚ) < 0 := sub_neg.mpr hsign
      exact_mod_cast h0
    have hTneg : T < 0 := div_neg_of_neg_of_pos hd hSpos
    push_cast
    have hstep : (-1 : ℝ) * (M : ℝ) / 100 - T = -((M : ℝ) / 100 - |T|) := by
      rw [abs_of_neg hTneg]
      ring
    rw [hstep, abs_neg]
    exact hkey
  · rw [if_neg hsign]
    have hd : (0 : ℝ) ≤ ((q - mean xs : ℚ) : ℝ) := by
      have h0 : (0 : ℚ) ≤ q - mean xs := sub_nonneg.mpr (not_lt.mp hsign)
      exact_mod_cast h0
    have hTpos : 0 ≤ T := div_nonneg hd hSpos.le
    push_cast
    have hstep : (1 : ℝ) * (M : ℝ) / 100 - T = (M : ℝ) / 100 - |T| := by
      rw [abs_of_nonneg hTpos]
      ring
    rw [hstep]
    exact hkey

/-- C8: every alert-panel entry carries the source record's display data:
`impacto_R$ = round2(|qtd| · custo_unit)`; the `zscore` column is the NaN
sentinel (`none`) whenever the Z-score is undefined (single-member or
zero-variance group) — never a coerced zero — and otherwise a rational
within 1/200 of the true Z-score `(qtd − μ)/σ`, i.e. the Z-score rounded
to 2 decimals. -/
theorem C8_panel_zscore_and_impact (df : DataFrame) (e : AlertEntry)
    (he : e ∈ build_alert_panel df) :
    ∃ r, r ∈ df ∧ flagAnyRow df r = true ∧ toEntry df r = e ∧
      e.impacto_RS = round2 (|r.qtd| * r.custo_unit) ∧
      ((groupQtds df r).length ≤ 1 → e.zscore = none) ∧
      (popVar (groupQtds df r) = 0 → e.zscore = none) ∧
      (0 < popVar (groupQtds df r) →
        ∃ z' : ℚ, e.zscore = some z' ∧
          |((z' : ℚ) : ℝ) - ((r.qtd - mean (groupQtds df r) : ℚ) : ℝ) /
            Real.sqrt ((popVar (groupQtds df r) : ℚ) : ℝ)| ≤ 1 / 200) := by
  obtain ⟨r, hr, hf, hre⟩ := mem_build_alert_panel.mp he
  refine ⟨r, hr, hf, hre, ?_, ?_, ?_, ?_⟩
  · rw [← hre]
    rfl
  · intro hlen
    rw [← hre]
    exact zscoreVal_eq_none _ _ (popVar_eq_zero_of_short hlen)
  · intro h0
    rw [← hre]
    exact zscoreVal_eq_none _ _ h0
  · intro hv
    rw [← hre]
    exact zscoreVal_approx _ _ hv

/-- Witness for C8 at the `U02` outlier entry of `dfTie`'s panel. -/
theorem C8_panel_zscore_and_impact_witness :
    ∃ r, r ∈ dfTie ∧ flagAnyRow dfTie r = true ∧
      toEntry dfTie r = toEntry dfTie (mkRec 7 "U02" "MAT-001" 100 1) ∧
      (toEntry dfTie (mkRec 7 "U02" "MAT-001" 100 1)).impacto_RS =
        round2 (|r.qtd| * r.custo_unit) ∧
      ((groupQtds dfTie r).length ≤ 1 →
        (toEntry dfTie (mkRec 7 "U02" "MAT-001" 100 1)).zscore = none) ∧
      (popVar (groupQtds dfTie r) = 0 →
        (toEntry dfTie (mkRec 7 "U02" "MAT-001" 100 1)).zscore = none) ∧
      (0 < popVar (groupQtds dfTie r) →
        ∃ z' : ℚ, (toEntry dfTie (mkRec 7 "U02" "MAT-001" 100 1)).zscore = some z' ∧
          |((z' : ℚ) : ℝ) - ((r.qtd - mean (groupQtds dfTie r) : ℚ) : ℝ) /
            Real.sqrt ((popVar (groupQtds dfTie r) : ℚ) : ℝ)| ≤ 1 / 200) :=
  C8_panel_zscore_and_impact dfTie (toEntry dfTie (mkRec 7 "U02" "MAT-001" 100 1))
    (by rw [panel_dfTie]; simp)
